import Mathlib

/-
Verification of the mysql session backend (pkg/services/session/mysql.go).

The database table is modelled as an explicit list of rows, the current unix
time as an integer parameter, and each database call takes an explicit
injected outcome (`none` = the call succeeds, `some e` = the driver reports
error `e`).  Gob encoding/decoding is an external collaborator and is passed
in as a function parameter.  Session data keys and values (`interface{}` in
the source) are arbitrary types `α`, `β`; the Go map is modelled as an
association list with unique keys maintained by the operations.
-/

namespace SessionMysql

/-- An opaque encoded byte blob (`[]byte` in the source). -/
abbrev Blob := List Nat

/-- One persisted row of the `session` table: `key`, `data`, `expiry`. -/
structure Row where
  key : String
  data : Blob
  expiry : Int
deriving DecidableEq, Repr

/-- The `session` table: a list of rows (the source schema keeps `key` unique). -/
abbrev Table := List Row

/-- Errors surfaced by the session backend: the `Regenerate` conflict error
(`fmt.Errorf` on an already-existing new sid), driver/database errors, and
gob encode/decode errors. -/
inductive SessionError where
  | conflict (sid : String)
  | db (msg : String)
  | gob (msg : String)
deriving DecidableEq, Repr

/-- In-memory session store (`MysqlStore` in the source), minus the shared
`*sql.DB` handle (passed explicitly to `release`) and the `sync.RWMutex`
(concurrency guard, no effect on sequential semantics). -/
structure MysqlStore (α β : Type) where
  sid : String
  data : List (α × β)
  expiry : Int
  dirty : Bool

/-- Go map assignment `m[k] = v`: any previous binding of `k` is replaced. -/
def mapSet [DecidableEq α] (m : List (α × β)) (k : α) (v : β) : List (α × β) :=
  m.filter (fun p => p.1 ≠ k) ++ [(k, v)]

/-- Go map read `m[k]`: `none` models the `nil` zero value for an absent key. -/
def mapGet [DecidableEq α] (m : List (α × β)) (k : α) : Option β :=
  (m.find? (fun p => decide (p.1 = k))).map (fun p => p.2)

/-- Go `delete(m, k)`: removes the binding of `k`, a no-op if `k` is absent. -/
def mapDelete [DecidableEq α] (m : List (α × β)) (k : α) : List (α × β) :=
  m.filter (fun p => p.1 ≠ k)

/-- `Set` (mysql.go:52-59): stores `key→val`, marks dirty, returns nil error. -/
def MysqlStore.set [DecidableEq α] (s : MysqlStore α β) (key : α) (val : β) :
    MysqlStore α β × Option SessionError :=
  ({ s with data := mapSet s.data key val, dirty := true }, none)

/-- `Get` (mysql.go:62-67): reads the value for `key` from the map. -/
def MysqlStore.get [DecidableEq α] (s : MysqlStore α β) (key : α) : Option β :=
  mapGet s.data key

/-- `Delete` (mysql.go:70-77): deletes `key` from the map, marks dirty,
returns nil error. -/
def MysqlStore.delete [DecidableEq α] (s : MysqlStore α β) (key : α) :
    MysqlStore α β × Option SessionError :=
  ({ s with data := mapDelete s.data key, dirty := true }, none)

/-- `ID` (mysql.go:80-82). -/
def MysqlStore.id (s : MysqlStore α β) : String := s.sid

/-- `Flush` (mysql.go:106-113): replaces the map with a fresh empty one,
marks dirty, returns nil error. -/
def MysqlStore.flush (s : MysqlStore α β) : MysqlStore α β × Option SessionError :=
  ({ s with data := [], dirty := true }, none)

/-- Effect of `UPDATE session SET data=?, expiry=? WHERE key=?` on the table. -/
def updateRow (t : Table) (sid : String) (blob : Blob) (expiry : Int) : Table :=
  t.map (fun r => if r.key = sid then { r with data := blob, expiry := expiry } else r)

/-- Effect of `INSERT INTO session(key,data,expiry) VALUES(?,?,?)` on the table. -/
def insertRow (t : Table) (sid : String) (blob : Blob) (expiry : Int) : Table :=
  t ++ [⟨sid, blob, expiry⟩]

/-- Effect of `UPDATE session SET key=? WHERE key=?` (Regenerate's rename). -/
def renameRow (t : Table) (oldsid newsid : String) : Table :=
  t.map (fun r => if r.key = oldsid then { r with key := newsid } else r)

/-- Effect of `DELETE FROM session WHERE key=?` (Destory). -/
def deleteRow (t : Table) (sid : String) : Table :=
  t.filter (fun r => r.key ≠ sid)

/-- Effect of `DELETE FROM session WHERE expiry + ? <= UNIX_TIMESTAMP(NOW())`
(GC's sweep): keeps exactly the rows with `expiry + expire > now`. -/
def deleteExpired (t : Table) (expire now : Int) : Table :=
  t.filter (fun r => ¬ (r.expiry + expire ≤ now))

/-- Result of `Release`: the updated store, the table after the call, the
number of database write statements executed, and the returned error. -/
structure ReleaseResult (α β : Type) where
  store : MysqlStore α β
  table : Table
  writes : Nat
  err : Option SessionError

/-- `Release` (mysql.go:85-103).  `now` is `time.Now().Unix()`; `enc` is
`session.EncodeGob`; `execErr` is the outcome of the `UPDATE` statement.
Skips entirely when `!dirty && expiry+60 >= now`.  Otherwise encodes (an
encode error returns early), executes the update, and — faithful to the
source — sets `dirty = false` and `expiry = now` before returning the exec
error, i.e. even when the exec failed. -/
def MysqlStore.release (s : MysqlStore α β) (now : Int)
    (enc : List (α × β) → Except SessionError Blob)
    (execErr : Option SessionError) (t : Table) : ReleaseResult α β :=
  if s.dirty = false ∧ s.expiry + 60 ≥ now then
    ⟨s, t, 0, none⟩
  else
    match enc s.data with
    | .error e => ⟨s, t, 0, some e⟩
    | .ok blob =>
      let t' := if execErr.isNone then updateRow t s.sid blob now else t
      ⟨{ s with dirty := false, expiry := now }, t', 1, execErr⟩

/-- `Read` (mysql.go:135-158).  `now` is the `time.Now().Unix()` taken before
the query; `queryErr` a non-ErrNoRows failure of the `SELECT`, `insertErr`
the outcome of the `INSERT` issued on ErrNoRows; `dec` is `session.DecodeGob`.
When no row exists a fresh row `(sid, empty, now)` is inserted and the local
`data`/`expiry` keep their zero/`now` values; an empty blob yields an empty
map; otherwise the blob is decoded and a decode error aborts the read. -/
def MysqlProvider.read (sid : String) (now : Int) (t : Table)
    (queryErr insertErr : Option SessionError)
    (dec : Blob → Except SessionError (List (α × β))) :
    Except SessionError (MysqlStore α β) × Table :=
  match queryErr with
  | some e => (.error e, t)
  | none =>
    match t.find? (fun r => decide (r.key = sid)) with
    | none =>
      match insertErr with
      | some e => (.error e, t)
      | none => (.ok ⟨sid, [], now, false⟩, insertRow t sid [] now)
    | some r =>
      if r.data.isEmpty then (.ok ⟨sid, [], r.expiry, false⟩, t)
      else
        match dec r.data with
        | .error e => (.error e, t)
        | .ok kv => (.ok ⟨sid, kv, r.expiry, false⟩, t)

/-- `queryExists` (mysql.go:176-185): scans one row; an injected driver error
is returned as-is, ErrNoRows maps to `(false, nil)`, a found row to
`(true, nil)`. -/
def MysqlProvider.queryExists (sid : String) (t : Table) (inj : Option SessionError) :
    Bool × Option SessionError :=
  match inj with
  | some e => (false, some e)
  | none => (t.any (fun r => decide (r.key = sid)), none)

/-- Result of `Exist`: the returned boolean, the number of `queryExists`
attempts, and the error logged (never returned) on persistent failure. -/
structure ExistResult where
  found : Bool
  attempts : Nat
  logged : Option SessionError
deriving DecidableEq, Repr

/-- `Exist` (mysql.go:161-174): one retry on a query error, then log the
error and return false. -/
def MysqlProvider.exist (sid : String) (t : Table) (inj1 inj2 : Option SessionError) :
    ExistResult :=
  match MysqlProvider.queryExists sid t inj1 with
  | (e1, none) => ⟨e1, 1, none⟩
  | (_, some _) =>
    match MysqlProvider.queryExists sid t inj2 with
    | (e2, none) => ⟨e2, 2, none⟩
    | (_, some e) => ⟨false, 2, some e⟩

/-- `Destory` (mysql.go:188-191): deletes the row, propagates the exec error. -/
def MysqlProvider.destory (sid : String) (t : Table) (execErr : Option SessionError) :
    Option SessionError × Table :=
  match execErr with
  | some e => (some e, t)
  | none => (none, deleteRow t sid)

/-- `Regenerate` (mysql.go:194-211).  Conflict error if `sid` already exists;
placeholder insert for a missing `oldsid`; rename `oldsid → sid`; then a
fresh `Read sid`.  The two `Exist` calls take their own query-outcome
injections; `insertErr`/`updateErr` are the outcomes of the two `Exec`s and
`readQueryErr`/`readInsertErr` those of the final `Read`'s statements. -/
def MysqlProvider.regenerate (oldsid sid : String) (now : Int) (t : Table)
    (existNew1 existNew2 existOld1 existOld2 : Option SessionError)
    (insertErr updateErr readQueryErr readInsertErr : Option SessionError)
    (dec : Blob → Except SessionError (List (α × β))) :
    Except SessionError (MysqlStore α β) × Table :=
  if (MysqlProvider.exist sid t existNew1 existNew2).found then
    (.error (.conflict sid), t)
  else
    let step1 : Except SessionError Table :=
      if (MysqlProvider.exist oldsid t existOld1 existOld2).found then .ok t
      else
        match insertErr with
        | some e => .error e
        | none => .ok (insertRow t oldsid [] now)
    match step1 with
    | .error e => (.error e, t)
    | .ok t1 =>
      match updateErr with
      | some e => (.error e, t1)
      | none =>
        MysqlProvider.read sid now (renameRow t1 oldsid sid) readQueryErr readInsertErr dec

/-- Outcome of `Count` (mysql.go:214-219): either the row total, or a panic
(the source calls `panic`, it has no error return). -/
inductive CountResult where
  | ok (total : Nat)
  | panicked (msg : String)
deriving DecidableEq, Repr

/-- `Count` (mysql.go:214-219): returns the row count, panics if the count
query errors. -/
def MysqlProvider.count (t : Table) (inj : Option String) : CountResult :=
  match inj with
  | some e => .panicked ("session/mysql: error counting records: " ++ e)
  | none => .ok t.length

/-- Result of `GC`: the table after the sweep, the number of delete attempts,
and the error logged (never returned) on persistent failure. -/
structure GCResult where
  table : Table
  attempts : Nat
  logged : Option SessionError
deriving DecidableEq, Repr

/-- `GC` (mysql.go:222-231): one delete attempt, one retry on error, then the
error is logged; nothing is ever returned or raised. -/
def MysqlProvider.gc (expire now : Int) (t : Table) (inj1 inj2 : Option SessionError) :
    GCResult :=
  match inj1 with
  | none => ⟨deleteExpired t expire now, 1, none⟩
  | some _ =>
    match inj2 with
    | none => ⟨deleteExpired t expire now, 2, none⟩
    | some e => ⟨t, 2, some e⟩

/-- Outcome of `Init` (mysql.go:123-132): success, a returned error, or the
nil-pointer panic from calling `SetConnMaxLifetime` on a nil handle. -/
inductive InitResult where
  | ok
  | err (e : SessionError)
  | nilPanic
deriving DecidableEq, Repr

/-- `Init` (mysql.go:123-132).  `handleIsNil` says whether `sql.Open`
returned a nil `*sql.DB`, `openErr` its error, `pingErr` the outcome of
`Ping`.  Faithful to the source order: `SetConnMaxLifetime` is invoked on
the handle (panicking on nil) before `openErr` is inspected. -/
def MysqlProvider.init (handleIsNil : Bool) (openErr pingErr : Option SessionError) :
    InitResult :=
  if handleIsNil then .nilPanic
  else
    match openErr with
    | some e => .err e
    | none =>
      match pingErr with
      | some e => .err e
      | none => .ok

/-! ## Helper lemmas on the map model -/

/-- Looking up a key just set returns the value set. -/
theorem mapGet_mapSet_self [DecidableEq α] (m : List (α × β)) (k : α) (v : β) :
    mapGet (mapSet m k v) k = some v := by
  induction m with
  | nil => simp [mapGet, mapSet]
  | cons p m ih =>
    by_cases h : p.1 = k
    · simp [mapSet, h] at ih ⊢
      exact ih
    · simp [mapGet, mapSet, List.find?, h] at ih ⊢

/-- Deleting an absent key leaves the map unchanged. -/
theorem mapDelete_absent [DecidableEq α] (m : List (α × β)) (k : α)
    (h : mapGet m k = none) : mapDelete m k = m := by
  rw [mapDelete, List.filter_eq_self]
  intro p hp
  rw [mapGet, Option.map_eq_none', List.find?_eq_none] at h
  simpa using h p hp

/-! ## Claim theorems -/

/-- C1: Release skip rule.  If `dirty` is false and `expiry + 60 ≥ now`,
`Release` executes zero database writes and leaves the store (in particular
`expiry`) and the table unchanged, returning no error.  If `dirty` is true or
`expiry + 60 < now`, and the encode and the update succeed, `Release` encodes
the map, writes the row's blob and expiry (set to `now`) keyed by the sid,
sets the store's expiry to `now` and clears `dirty`. -/
theorem release_skip_rule [DecidableEq α] [DecidableEq β] (s : MysqlStore α β)
    (now : Int) (enc : List (α × β) → Except SessionError Blob) (t : Table) :
    (s.dirty = false → s.expiry + 60 ≥ now →
      s.release now enc none t = ⟨s, t, 0, none⟩) ∧
    (∀ blob, (s.dirty = true ∨ s.expiry + 60 < now) → enc s.data = .ok blob →
      s.release now enc none t =
        ⟨{ s with dirty := false, expiry := now }, updateRow t s.sid blob now, 1, none⟩) := by
  constructor
  · intro h1 h2
    simp [MysqlStore.release, h1, h2]
  · intro blob h henc
    have hcond : ¬ (s.dirty = false ∧ s.expiry + 60 ≥ now) := by
      rcases h with h | h
      · simp [h]
      · intro hc
        exact absurd hc.2 (not_le.mpr h)
    simp [MysqlStore.release, hcond, henc]

/-- C1 witness: the skip case at `dirty=false, expiry=100, now=100` and the
write case at `dirty=true`. -/
theorem release_skip_rule_witness :
    (MysqlStore.release (⟨"s1", [], 100, false⟩ : MysqlStore Nat Nat) 100
        (fun _ => .ok []) none [] = ⟨⟨"s1", [], 100, false⟩, [], 0, none⟩) ∧
    (MysqlStore.release (⟨"s1", [(1, 2)], 100, true⟩ : MysqlStore Nat Nat) 100
        (fun _ => .ok [7]) none [⟨"s1", [], 40⟩] =
      ⟨⟨"s1", [(1, 2)], 100, false⟩, [⟨"s1", [7], 100⟩], 1, none⟩) := by
  constructor
  · exact (release_skip_rule ⟨"s1", [], 100, false⟩ 100 (fun _ => .ok []) []).1
      rfl (by decide)
  · have := (release_skip_rule ⟨"s1", [(1, 2)], 100, true⟩ 100
      (fun _ => .ok [7]) [⟨"s1", [], 40⟩]).2 [7] (Or.inl rfl) rfl
    rw [this]
    rfl

/-- C2 counterexample: with `dirty = true`, a failing UPDATE makes Release
propagate the database error, yet it still clears `dirty` and sets `expiry`
to `now` — the store's state is NOT left unchanged on a database error, and
`dirty` is cleared although the row update did not succeed. -/
theorem release_db_error_counterexample :
    (MysqlStore.release (⟨"s1", [(1, 2)], 0, true⟩ : MysqlStore Nat Nat) 100
        (fun _ => Except.ok [7]) (some (SessionError.db "connection lost"))
        [⟨"s1", [], 0⟩]).err = some (SessionError.db "connection lost") ∧
    (MysqlStore.release (⟨"s1", [(1, 2)], 0, true⟩ : MysqlStore Nat Nat) 100
        (fun _ => Except.ok [7]) (some (SessionError.db "connection lost"))
        [⟨"s1", [], 0⟩]).store.dirty = false ∧
    (MysqlStore.release (⟨"s1", [(1, 2)], 0, true⟩ : MysqlStore Nat Nat) 100
        (fun _ => Except.ok [7]) (some (SessionError.db "connection lost"))
        [⟨"s1", [], 0⟩]).store.expiry = 100 := by
  exact ⟨rfl, rfl, rfl⟩

/-- C2 (amended): on the write-back path of Release, an encode error is
propagated and leaves the store and the table unchanged; with a successful
encode, a database error is propagated and the table is unchanged, but the
store's `dirty` flag is still cleared and its `expiry` still set to `now`
(the flag update is unconditional, not gated on exec success). -/
theorem release_error_propagation (s : MysqlStore α β) (now : Int)
    (enc : List (α × β) → Except SessionError Blob) (t : Table)
    (hno : ¬ (s.dirty = false ∧ s.expiry + 60 ≥ now)) :
    (∀ e execErr, enc s.data = .error e →
      s.release now enc execErr t = ⟨s, t, 0, some e⟩) ∧
    (∀ blob e, enc s.data = .ok blob →
      s.release now enc (some e) t =
        ⟨{ s with dirty := false, expiry := now }, t, 1, some e⟩) := by
  constructor
  · intro e execErr henc
    simp [MysqlStore.release, hno, henc]
  · intro blob e henc
    simp [MysqlStore.release, hno, henc]

/-- C2 witness: at `dirty = true`, a failing encode is propagated with the
store untouched, and a failing exec is propagated with the table untouched. -/
theorem release_error_propagation_witness :
    (MysqlStore.release (⟨"s1", [(1, 2)], 0, true⟩ : MysqlStore Nat Nat) 100
        (fun _ => Except.error (SessionError.gob "bad")) none [] =
      ⟨⟨"s1", [(1, 2)], 0, true⟩, [], 0, some (SessionError.gob "bad")⟩) ∧
    (MysqlStore.release (⟨"s1", [(1, 2)], 0, true⟩ : MysqlStore Nat Nat) 100
        (fun _ => Except.ok [7]) (some (SessionError.db "down")) [⟨"s1", [], 0⟩] =
      ⟨⟨"s1", [(1, 2)], 100, false⟩, [⟨"s1", [], 0⟩], 1, some (SessionError.db "down")⟩) := by
  constructor
  · exact (release_error_propagation ⟨"s1", [(1, 2)], 0, true⟩ 100
      (fun _ => Except.error (SessionError.gob "bad")) [] (by simp)).1
      (SessionError.gob "bad") none rfl
  · have := (release_error_propagation ⟨"s1", [(1, 2)], 0, true⟩ 100
      (fun _ => Except.ok [7]) [⟨"s1", [], 0⟩] (by simp)).2
      [7] (SessionError.db "down") rfl
    rw [this]

/-- C3: `Set k v` followed by `Get k` returns `some v` on the same store,
`Set` marks the store dirty, and `Set` returns no error. -/
theorem set_then_get [DecidableEq α] (s : MysqlStore α β) (k : α) (v : β) :
    (s.set k v).1.get k = some v ∧ (s.set k v).1.dirty = true ∧
    (s.set k v).2 = none := by
  refine ⟨?_, rfl, rfl⟩
  exact mapGet_mapSet_self s.data k v

/-- C9: `Delete k` marks the store dirty and returns no error even when `k`
is absent (in which case the map itself is unchanged), and a subsequent
Release on the deleted-from store performs a database write. -/
theorem delete_marks_dirty [DecidableEq α] (s : MysqlStore α β) (k : α) :
    (s.delete k).1.dirty = true ∧ (s.delete k).2 = none ∧
    (s.get k = none → (s.delete k).1.data = s.data) ∧
    (∀ now enc blob t, enc ((s.delete k).1.data) = Except.ok blob →
      ((s.delete k).1.release now enc none t).writes = 1) := by
  refine ⟨rfl, rfl, ?_, ?_⟩
  · intro h
    exact mapDelete_absent s.data k h
  · intro now enc blob t henc
    simp only [MysqlStore.delete] at henc
    simp [MysqlStore.release, MysqlStore.delete, henc]

/-- C9 witness: deleting the absent key 5 leaves the map `[(1, 2)]` unchanged
and the following Release executes one write. -/
theorem delete_marks_dirty_witness :
    ((⟨"s1", [(1, 2)], 0, false⟩ : MysqlStore Nat Nat).delete 5).1.data = [(1, 2)] ∧
    (((⟨"s1", [(1, 2)], 0, false⟩ : MysqlStore Nat Nat).delete 5).1.release 100
      (fun _ => Except.ok []) none []).writes = 1 := by
  constructor
  · exact (delete_marks_dirty (⟨"s1", [(1, 2)], 0, false⟩ : MysqlStore Nat Nat) 5).2.2.1 rfl
  · exact (delete_marks_dirty (⟨"s1", [(1, 2)], 0, false⟩ : MysqlStore Nat Nat) 5).2.2.2
      100 (fun _ => Except.ok []) [] [] rfl

/-- C4: GC deletes exactly the rows with `expiry + expireSeconds ≤ now` and
leaves every other row untouched; a failing delete is retried exactly once;
persistent failure is only logged — `GC` has no error result at all. -/
theorem gc_spec (expire now : Int) (t : Table) :
    (MysqlProvider.gc expire now t none none =
      ⟨deleteExpired t expire now, 1, none⟩) ∧
    (∀ e, MysqlProvider.gc expire now t (some e) none =
      ⟨deleteExpired t expire now, 2, none⟩) ∧
    (∀ e e2, MysqlProvider.gc expire now t (some e) (some e2) = ⟨t, 2, some e2⟩) ∧
    (∀ r, r ∈ deleteExpired t expire now ↔ r ∈ t ∧ ¬ (r.expiry + expire ≤ now)) := by
  refine ⟨rfl, fun e => rfl, fun e e2 => rfl, fun r => ?_⟩
  simp [deleteExpired]

/-- C4 witness: the spec's concrete scenario, `expireSeconds = 3600` at
`now = 10000`: the row with `expiry = 6000 = now - 4000` is deleted, the row
with `expiry = 9900 = now - 100` is retained. -/
theorem gc_spec_witness :
    MysqlProvider.gc 3600 10000 [⟨"a", [], 6000⟩, ⟨"b", [], 9900⟩] none none =
      ⟨[⟨"b", [], 9900⟩], 1, none⟩ := by
  have h := (gc_spec 3600 10000 [⟨"a", [], 6000⟩, ⟨"b", [], 9900⟩]).1
  rw [h]
  rfl

/-- C5: on a sid with no row, `Read` inserts a row with an empty blob and the
current time as expiry and returns a store with an empty map, that expiry and
`dirty = false`; on an existing row with a non-empty blob, a decode failure
makes `Read` return the error and no store (and the table is untouched). -/
theorem read_spec [DecidableEq α] (sid : String) (now : Int) (t : Table)
    (dec : Blob → Except SessionError (List (α × β))) :
    (t.find? (fun r => decide (r.key = sid)) = none →
      MysqlProvider.read sid now t none none dec =
        (.ok ⟨sid, [], now, false⟩, insertRow t sid [] now)) ∧
    (∀ r e, t.find? (fun r => decide (r.key = sid)) = some r →
      r.data.isEmpty = false → dec r.data = .error e →
      MysqlProvider.read sid now t none none dec = (.error e, t)) := by
  constructor
  · intro h
    simp [MysqlProvider.read, h]
  · intro r e hfind hne hdec
    simp [MysqlProvider.read, hfind, hne, hdec]

/-- C5 witness: `Read "s1"` on the empty table inserts `("s1", empty, 5)` and
returns the fresh empty store; a decode failure on a non-empty blob errors. -/
theorem read_spec_witness :
    (MysqlProvider.read "s1" 5 [] none none (fun _ => Except.ok ([] : List (Nat × Nat))) =
      (.ok ⟨"s1", [], 5, false⟩, [⟨"s1", [], 5⟩])) ∧
    (MysqlProvider.read "s1" 5 [⟨"s1", [9], 3⟩] none none
        (fun _ => (Except.error (SessionError.gob "bad") : Except SessionError (List (Nat × Nat)))) =
      (.error (SessionError.gob "bad"), [⟨"s1", [9], 3⟩])) := by
  constructor
  · exact (read_spec "s1" 5 [] (fun _ => Except.ok ([] : List (Nat × Nat)))).1 rfl
  · exact (read_spec "s1" 5 [⟨"s1", [9], 3⟩]
      (fun _ => (Except.error (SessionError.gob "bad") : Except SessionError (List (Nat × Nat))))).2
      ⟨"s1", [9], 3⟩ (SessionError.gob "bad") rfl rfl rfl

/-- C7: a "no rows" result is a definitive false with a single attempt and no
retry; a found row with a successful query returns true; any other query
error triggers exactly one retry, and if the retry also errors the error is
logged and false is returned instead of propagating. -/
theorem exist_spec (sid : String) (t : Table) :
    (t.any (fun r => decide (r.key = sid)) = false →
      MysqlProvider.exist sid t none none = ⟨false, 1, none⟩) ∧
    (t.any (fun r => decide (r.key = sid)) = true →
      MysqlProvider.exist sid t none none = ⟨true, 1, none⟩) ∧
    (∀ e, MysqlProvider.exist sid t (some e) none =
      ⟨t.any (fun r => decide (r.key = sid)), 2, none⟩) ∧
    (∀ e e2, MysqlProvider.exist sid t (some e) (some e2) = ⟨false, 2, some e2⟩) := by
  refine ⟨?_, ?_, fun e => rfl, fun e e2 => rfl⟩
  · intro h
    simp [MysqlProvider.exist, MysqlProvider.queryExists, h]
  · intro h
    simp [MysqlProvider.exist, MysqlProvider.queryExists, h]

/-- C7 witness: absent sid answers false in one attempt; present sid answers
true; a double failure is logged and answered false. -/
theorem exist_spec_witness :
    (MysqlProvider.exist "s1" [] none none = ⟨false, 1, none⟩) ∧
    (MysqlProvider.exist "s1" [⟨"s1", [], 0⟩] none none = ⟨true, 1, none⟩) ∧
    (MysqlProvider.exist "s1" [⟨"s1", [], 0⟩] (some (SessionError.db "a"))
      (some (SessionError.db "b")) = ⟨false, 2, some (SessionError.db "b")⟩) := by
  refine ⟨?_, ?_, ?_⟩
  · exact (exist_spec "s1" []).1 rfl
  · exact (exist_spec "s1" [⟨"s1", [], 0⟩]).2.1 (by decide)
  · exact (exist_spec "s1" [⟨"s1", [], 0⟩]).2.2.2 (SessionError.db "a") (SessionError.db "b")

/-- C8: `Count` returns the total row count on success, and on a query error
it panics (the `CountResult.panicked` outcome) — it does not return an error
value and in particular never yields a (misleading) `ok` count such as zero. -/
theorem count_spec (t : Table) (e : String) :
    MysqlProvider.count t none = CountResult.ok t.length ∧
    MysqlProvider.count t (some e) =
      CountResult.panicked ("session/mysql: error counting records: " ++ e) ∧
    (∀ n, MysqlProvider.count t (some e) ≠ CountResult.ok n) := by
  refine ⟨rfl, rfl, fun n h => ?_⟩
  simp [MysqlProvider.count] at h

/-- C8 witness: counting two rows yields 2; a failing count query panics and
is not `ok 0`. -/
theorem count_spec_witness :
    MysqlProvider.count [⟨"a", [], 0⟩, ⟨"b", [], 0⟩] none = CountResult.ok 2 ∧
    MysqlProvider.count [⟨"a", [], 0⟩, ⟨"b", [], 0⟩] (some "boom") ≠ CountResult.ok 0 := by
  constructor
  · exact (count_spec [⟨"a", [], 0⟩, ⟨"b", [], 0⟩] "boom").1
  · exact (count_spec [⟨"a", [], 0⟩, ⟨"b", [], 0⟩] "boom").2.2 0

/-- C10: when `sql.Open` yields a nil handle, `Init` hits the nil-pointer
dereference in `SetConnMaxLifetime` (placed before the error check) and
panics for every open/ping error combination — in particular it never
reaches the error-return branch; that branch is reached only with a non-nil
handle. -/
theorem init_nil_handle (openErr pingErr : Option SessionError) :
    MysqlProvider.init true openErr pingErr = InitResult.nilPanic ∧
    (∀ e, MysqlProvider.init true openErr pingErr ≠ InitResult.err e) ∧
    (∀ e p2, MysqlProvider.init false (some e) p2 = InitResult.err e) := by
  refine ⟨rfl, fun e h => ?_, fun e p2 => rfl⟩
  simp [MysqlProvider.init] at h

/-- C10 witness: a failed open with a nil handle panics instead of returning
the connection error. -/
theorem init_nil_handle_witness :
    MysqlProvider.init true (some (SessionError.db "bad dsn")) none = InitResult.nilPanic ∧
    MysqlProvider.init true (some (SessionError.db "bad dsn")) none ≠
      InitResult.err (SessionError.db "bad dsn") := by
  constructor
  · exact (init_nil_handle (some (SessionError.db "bad dsn")) none).1
  · exact (init_nil_handle (some (SessionError.db "bad dsn")) none).2.1
      (SessionError.db "bad dsn")

/-- After inserting a placeholder row for `oldsid` into a table containing
neither `oldsid` nor `sid`, renaming `oldsid → sid` makes that placeholder
the row found under `sid`. -/
theorem find_rename_insert (t : Table) (oldsid sid : String) (now : Int)
    (hsid : ∀ r ∈ t, r.key ≠ sid) (hold : ∀ r ∈ t, r.key ≠ oldsid) :
    (renameRow (insertRow t oldsid [] now) oldsid sid).find?
      (fun r => decide (r.key = sid)) = some ⟨sid, [], now⟩ := by
  induction t with
  | nil => simp [renameRow, insertRow, List.find?]
  | cons r t ih =>
    have h1 : r.key ≠ sid := hsid r (List.mem_cons_self r t)
    have h2 : r.key ≠ oldsid := hold r (List.mem_cons_self r t)
    have ih2 := ih (fun x hx => hsid x (List.mem_cons_of_mem r hx))
      (fun x hx => hold x (List.mem_cons_of_mem r hx))
    simp only [insertRow, renameRow, List.cons_append, List.map_cons] at ih2 ⊢
    rw [if_neg h2, List.find?_cons_of_neg]
    · exact ih2
    · simp [h1]

/-- C6: Regenerate returns the conflict error and mutates no row when a row
for the new sid exists; with no row for the old sid it inserts a placeholder
`(oldsid, empty, now)`, renames it to the new sid, and returns the fresh
`Read` store with an empty map; a database error of the placeholder insert or
of the rename aborts with that error.  (All existence queries succeed.) -/
theorem regenerate_spec [DecidableEq α] (oldsid sid : String) (now : Int) (t : Table)
    (dec : Blob → Except SessionError (List (α × β))) :
    (t.any (fun r => decide (r.key = sid)) = true →
      MysqlProvider.regenerate oldsid sid now t none none none none none none none none dec =
        (.error (.conflict sid), t)) ∧
    ((∀ r ∈ t, r.key ≠ sid) → (∀ r ∈ t, r.key ≠ oldsid) →
      MysqlProvider.regenerate oldsid sid now t none none none none none none none none dec =
        (.ok ⟨sid, [], now, false⟩, renameRow (insertRow t oldsid [] now) oldsid sid)) ∧
    (∀ e, (∀ r ∈ t, r.key ≠ sid) → (∀ r ∈ t, r.key ≠ oldsid) →
      MysqlProvider.regenerate oldsid sid now t none none none none (some e) none none none dec =
        (.error e, t)) ∧
    (∀ e, (∀ r ∈ t, r.key ≠ sid) → t.any (fun r => decide (r.key = oldsid)) = true →
      MysqlProvider.regenerate oldsid sid now t none none none none none (some e) none none dec =
        (.error e, t)) := by
  have any_of_forall : ∀ (sid' : String), (∀ r ∈ t, r.key ≠ sid') →
      t.any (fun r => decide (r.key = sid')) = false := by
    intro sid' h
    simp only [List.any_eq_false, decide_eq_true_eq]
    exact h
  refine ⟨?_, ?_, ?_, ?_⟩
  · intro h
    simp [MysqlProvider.regenerate, MysqlProvider.exist, MysqlProvider.queryExists, h]
  · intro hsid hold
    have hfind := find_rename_insert t oldsid sid now hsid hold
    simp [MysqlProvider.regenerate, MysqlProvider.exist, MysqlProvider.queryExists,
      MysqlProvider.read, any_of_forall sid hsid, any_of_forall oldsid hold, hfind]
  · intro e hsid hold
    simp [MysqlProvider.regenerate, MysqlProvider.exist, MysqlProvider.queryExists,
      any_of_forall sid hsid, any_of_forall oldsid hold]
  · intro e hsid hold
    simp [MysqlProvider.regenerate, MysqlProvider.exist, MysqlProvider.queryExists,
      any_of_forall sid hsid, hold]

/-- C6 witness: regenerating onto the existing sid "new" is a conflict with
the table untouched; regenerating "old" (absent) to "new" (absent) over a
one-row table inserts the placeholder, renames it, and yields the fresh
empty store for "new". -/
theorem regenerate_spec_witness :
    (MysqlProvider.regenerate "old" "new" 5 [⟨"new", [], 7⟩]
        none none none none none none none none
        (fun _ => Except.ok ([] : List (Nat × Nat))) =
      (.error (.conflict "new"), [⟨"new", [], 7⟩])) ∧
    (MysqlProvider.regenerate "old" "new" 5 [⟨"a", [3], 7⟩]
        none none none none none none none none
        (fun _ => Except.ok ([] : List (Nat × Nat))) =
      (.ok ⟨"new", [], 5, false⟩, [⟨"a", [3], 7⟩, ⟨"new", [], 5⟩])) := by
  constructor
  · exact (regenerate_spec "old" "new" 5 [⟨"new", [], 7⟩]
      (fun _ => Except.ok ([] : List (Nat × Nat)))).1 (by decide)
  · have h := (regenerate_spec "old" "new" 5 [⟨"a", [3], 7⟩]
      (fun _ => Except.ok ([] : List (Nat × Nat)))).2.1 (by decide) (by decide)
    rw [h]
    rfl

end SessionMysql
